import Mathlib

/-!
Verification of the digital-twin conversation subsystem of the resume site:
the server-side proxy (`web/src/app/api/digital-twin/route.ts`) and the
client-side chat state machine (`digital-twin-chat.tsx`).

The embedding is shallow.  JavaScript strings are `String`; JavaScript
string primitives used by the code (`trim`, `split(/\r?\n/)`, `startsWith`,
`indexOf`/`slice`, the surrounding-quote `replace`) are re-implemented over
`List Char` so that every definition evaluates by kernel reduction.
`undefined`/`null`/absent-or-wrongly-typed values are `Option`; thrown
exceptions and network outcomes are explicit constructors.
-/

namespace ResumeSite

/-! ## JavaScript string primitives -/

/-- Model of JavaScript `String.prototype.trim`: drop leading and trailing
whitespace characters. -/
def jsTrim (s : String) : String :=
  String.mk (((s.toList.dropWhile Char.isWhitespace).reverse.dropWhile Char.isWhitespace).reverse)

/-- Split a character list at every `\n` or `\r\n`, as `split(/\r?\n/)` does.
Always returns at least one (possibly empty) piece. -/
def splitLinesList : List Char → List (List Char)
  | [] => [[]]
  | '\n' :: rest => [] :: splitLinesList rest
  | '\r' :: '\n' :: rest => [] :: splitLinesList rest
  | c :: rest =>
    match splitLinesList rest with
    | [] => [[c]]
    | h :: t => (c :: h) :: t

/-- Model of `raw.split(/\r?\n/)` from `readApiKeyFromParentEnv`. -/
def splitLines (s : String) : List String :=
  (splitLinesList s.toList).map String.mk

/-- Helper for `strStartsWith`, over character lists. -/
def startsAux : List Char → List Char → Bool
  | _, [] => true
  | [], _ :: _ => false
  | c :: cs, p :: ps => c = p && startsAux cs ps

/-- Model of JavaScript `s.startsWith(pre)`. -/
def strStartsWith (s pre : String) : Bool := startsAux s.toList pre.toList

/-- Model of `keyLine.slice(keyLine.indexOf("=") + 1)`: everything after the
first `=`; the whole string when there is no `=` (JavaScript `indexOf`
returns `-1` and `slice(0)` is the identity). -/
def afterFirstEq (s : String) : String :=
  match s.toList.dropWhile (fun c => c ≠ '=') with
  | [] => s
  | _ :: rest => String.mk rest

/-- A single or double quote character (`\x27` or `"`). -/
def isQuoteChar (c : Char) : Bool := c = '"' || c.toNat = 39

/-- Drop one leading quote character if present. -/
def stripLeadingQuote (l : List Char) : List Char :=
  match l with
  | [] => []
  | c :: rest => if isQuoteChar c then rest else l

/-- Model of `.replace(/^['"]|['"]$/g, "")`: remove at most one leading and
at most one trailing quote character. -/
def stripQuotes (s : String) : String :=
  String.mk ((stripLeadingQuote (stripLeadingQuote s.toList).reverse).reverse)

/-! ## Server proxy: credential resolution (`route.ts`, lines 48-67)

The file system and the process environment are passed explicitly:
`fileContent : Option String` is the content of `../.env` (`none` when
`readFileSync` throws, i.e. the file is unreadable), and
`envVar : Option String` is `process.env.OPENROUTER_API_KEY`
(`none` when unset). -/

/-- Model of `readApiKeyFromParentEnv` (`route.ts` lines 48-63): read the
first line of `../.env` whose trimmed form starts with
`OPENROUTER_API_KEY=`, take everything after the first `=`, trim it, strip
one pair of surrounding quotes, and return `none` for an empty result or
any failure. -/
def readApiKeyFromParentEnv (fileContent : Option String) : Option String :=
  match fileContent with
  | none => none
  | some raw =>
    match (splitLines raw).find? (fun line => strStartsWith (jsTrim line) "OPENROUTER_API_KEY=") with
    | none => none
    | some keyLine =>
      let value := stripQuotes (jsTrim (afterFirstEq keyLine))
      if value = "" then none else some value

/-- Model of `getApiKey` (`route.ts` lines 65-67):
`process.env.OPENROUTER_API_KEY?.trim() || readApiKeyFromParentEnv()`.
The `||` is JavaScript truthiness, so an unset variable and a variable that
trims to the empty string both fall back to the parent `.env` file. -/
def getApiKey (envVar fileContent : Option String) : Option String :=
  match envVar with
  | none => readApiKeyFromParentEnv fileContent
  | some v => if jsTrim v = "" then readApiKeyFromParentEnv fileContent else some (jsTrim v)

/-- Instrumented `getApiKey`: the same value, paired with the number of
reads of the fallback file `../.env` that this single invocation performs.
`getApiKey` calls `readApiKeyFromParentEnv` (one `readFileSync` attempt)
exactly when the environment variable is unset or trims to empty; there is
no module-level cache in `route.ts`, so every invocation repeats the read. -/
def getApiKeyCounted (envVar fileContent : Option String) : Option String × Nat :=
  match envVar with
  | none => (readApiKeyFromParentEnv fileContent, 1)
  | some v =>
    if jsTrim v = "" then (readApiKeyFromParentEnv fileContent, 1) else (some (jsTrim v), 0)

/-! ## Server proxy: message sanitization (`route.ts`, lines 43-46, 117-126) -/

/-- Fixed message bound (`route.ts` line 9). -/
def MAX_MESSAGES : Nat := 12

/-- Provider model identifier (`route.ts` line 8). -/
def OPENROUTER_MODEL : String := "gpt-oss-120b"

/-- Model of the `IncomingMessage` payload entry (`route.ts` lines 43-46).
`role = none` stands for an absent or non-string `role` value and
`content = none` for an absent or non-string `content` value; the filter in
`POST` treats all of those identically (`===`/`typeof` checks fail). -/
structure IncomingMessage where
  role : Option String
  content : Option String
deriving DecidableEq, Repr

/-- The filter predicate of `POST` (`route.ts` lines 119-124): role is
exactly `user` or `assistant`, and content is a string whose trimmed length
is positive. -/
def isValidMessage (m : IncomingMessage) : Bool :=
  (m.role = some "user" || m.role = some "assistant") &&
    (match m.content with
     | some s => (jsTrim s).length > 0
     | none => false)

/-- Model of JavaScript `slice(-n)`: the last `n` elements. -/
def sliceLast (n : Nat) (l : List α) : List α := l.drop (l.length - n)

/-- The `safeMessages` computation of `POST` (`route.ts` lines 117-126):
filter, then keep the last `MAX_MESSAGES`.  `none` stands for a `messages`
field that is absent or not an array. -/
def sanitizeMessages (payloadMessages : Option (List IncomingMessage)) : List IncomingMessage :=
  match payloadMessages with
  | none => []
  | some ms => sliceLast MAX_MESSAGES (ms.filter isValidMessage)

/-! ## Server proxy: reply normalization (`route.ts`, lines 69-99) -/

/-- One element of an array-shaped provider content value.  `obj tag text`
models a non-null object element: `tag` is its `type` field (`none` when the
field is absent or not a string — the `=== "text"` comparison then fails) and
`text` is its `text` field (`none` when absent; a present `null`/`undefined`
value becomes `""` through `chunk.text ?? ""` and is modelled as `some ""`;
`String(...)` coercion of non-string values is modelled as the coerced
string). `otherVal` is any non-string non-object element. -/
inductive Chunk where
  | str (s : String)
  | obj (tag : Option String) (text : Option String)
  | otherVal
deriving DecidableEq, Repr

/-- The provider `content` value: a plain string, an array of chunks, or
anything else (including absent). -/
inductive Content where
  | str (s : String)
  | arr (chunks : List Chunk)
  | otherVal
deriving DecidableEq, Repr

/-- The `.map((chunk) => ...)` body of `extractAssistantText` (`route.ts`
lines 76-92): a string element maps to itself; an object element whose
`type` field equals `"text"` maps to `chunk.text ?? ""` (the source also
demands the `text` field be present, but an absent field and a present
nullish field both end up as `""`); everything else maps to `""`. -/
def mapChunk : Chunk → String
  | .str s => s
  | .obj tag text => if tag = some "text" then text.getD "" else ""
  | .otherVal => ""

/-- Model of `extractAssistantText` (`route.ts` lines 69-99): a string is
trimmed; an array is mapped by `mapChunk`, emptied entries are removed by
`.filter(Boolean)`, the rest joined with `"\n"` and trimmed; anything else
yields `""`. -/
def extractAssistantText : Content → String
  | .str s => jsTrim s
  | .arr chunks =>
    jsTrim (String.intercalate "\n" ((chunks.map mapChunk).filter (fun s => s ≠ "")))
  | .otherVal => ""

/-! ## Server proxy: the `POST` handler (`route.ts`, lines 101-186) -/

/-- Outcome of `request.json()`: `malformed` when it throws; otherwise the
`messages` field (`none` when absent or not an array). -/
inductive BodyParse where
  | malformed
  | parsed (messages : Option (List IncomingMessage))
deriving DecidableEq, Repr

/-- The parsed upstream response body (`route.ts` lines 155-158):
`errorMessage` is `data.error?.message` (`none` when any link is absent) and
`content` is `data.choices?.[0]?.message?.content` (`Content.otherVal` when
absent). -/
structure ProviderData where
  errorMessage : Option String
  content : Content
deriving DecidableEq, Repr

/-- Outcome of the upstream `fetch` plus `response.json()`: `throws` when
either throws (network failure, non-JSON body), otherwise `response.ok`
together with the parsed data. -/
inductive FetchOutcome where
  | throws
  | upstream (ok : Bool) (data : ProviderData)
deriving DecidableEq, Repr

/-- A terminated `NextResponse.json` value: the success payload
`{reply, model}` or an error payload `{error}` with its HTTP status. -/
inductive ProxyResponse where
  | success (reply : String) (model : String)
  | errorResp (message : String) (status : Nat)
deriving DecidableEq, Repr

/-- Result of one `POST` invocation: the response sent, and whether the
upstream provider `fetch` was issued. -/
structure PostResult where
  response : ProxyResponse
  providerCalled : Bool
deriving DecidableEq, Repr

/-- Model of the `POST` handler (`route.ts` lines 101-186), as a function of
the process environment, the `../.env` file content, the body-parse outcome
and the upstream outcome.  Control flow follows the source: credential
check, then body parse, then sanitization, then the provider call and reply
normalization. -/
def POST (envVar fileContent : Option String) (body : BodyParse) (fetch : FetchOutcome) :
    PostResult :=
  match getApiKey envVar fileContent with
  | none =>
    ⟨.errorResp "OPENROUTER_API_KEY is missing. Add it to web/.env.local or ../.env." 500, false⟩
  | some _ =>
    match body with
    | .malformed => ⟨.errorResp "Invalid JSON body." 400, false⟩
    | .parsed msgs =>
      let safeMessages := sanitizeMessages msgs
      if safeMessages.length = 0 then
        ⟨.errorResp "Provide at least one valid message." 400, false⟩
      else
        match fetch with
        | .throws => ⟨.errorResp "Unable to reach OpenRouter. Please try again." 502, true⟩
        | .upstream ok data =>
          if ok = false then
            ⟨.errorResp
              (match data.errorMessage with
               | some m => if m = "" then "OpenRouter request failed." else m
               | none => "OpenRouter request failed.") 502, true⟩
          else
            let reply := extractAssistantText data.content
            if reply = "" then
              ⟨.errorResp "Model returned an empty response." 502, true⟩
            else
              ⟨.success reply OPENROUTER_MODEL, true⟩

/-! ## Client chat state machine (`digital-twin-chat.tsx`)

`sendPrompt` spans an `await`; its synchronous head (up to issuing the
request) is `sendPromptStart` and the continuation applied to the settled
response is `sendPromptResolve`.  The id-generation inputs `Date.now()` and
`Math.random().toString(36).slice(2, 8)` are passed explicitly as `now`
and `rand`. -/

/-- The `ChatRole` union type (`digital-twin-chat.tsx` line 5). -/
inductive ChatRole where
  | user
  | assistant
deriving DecidableEq, Repr

/-- String form of a role, as used inside the generated id. -/
def roleString : ChatRole → String
  | .user => "user"
  | .assistant => "assistant"

/-- The `ChatMessage` record (`digital-twin-chat.tsx` lines 7-11). -/
structure ChatMessage where
  id : String
  role : ChatRole
  content : String
deriving DecidableEq, Repr

/-- Model of `newMessage` (`digital-twin-chat.tsx` lines 20-26): the id is
the template string of the role, `Date.now()` and the base-36 slice of
`Math.random()`. -/
def newMessage (now : Nat) (rand : String) (role : ChatRole) (content : String) : ChatMessage :=
  ⟨roleString role ++ "-" ++ toString now ++ "-" ++ rand, role, content⟩

/-- The greeting text of the seed assistant message
(`digital-twin-chat.tsx` lines 30-33). -/
def greetingText : String :=
  "I am AdrianAI, a digital twin assistant. Ask me anything about Adrian\x27s career journey, architecture leadership, and cloud modernization expertise."

/-- The four `useState` cells of `DigitalTwinChat` (`digital-twin-chat.tsx`
lines 29-37): the message log, the textarea draft, the in-flight flag and
the display-level error (`none` models `null`). -/
structure ChatState where
  messages : List ChatMessage
  draft : String
  isLoading : Bool
  error : Option String
deriving DecidableEq, Repr

/-- The initial state of `DigitalTwinChat` (`digital-twin-chat.tsx` lines
29-37): one seed assistant message whose id is produced by `newMessage`
from the `Date.now()` and `Math.random()` values current at initialization. -/
def initialState (now : Nat) (rand : String) : ChatState :=
  ⟨[newMessage now rand .assistant greetingText], "", false, none⟩

/-- One entry of the outbound request body: the `{role, content}`
projection of a `ChatMessage` (`digital-twin-chat.tsx` lines 65-68). -/
structure OutboundMessage where
  role : ChatRole
  content : String
deriving DecidableEq, Repr

/-- The synchronous head of `sendPrompt` (`digital-twin-chat.tsx` lines
44-56): trim the prompt; when it is empty or a request is in flight, return
unchanged and issue nothing; otherwise append the new user message, clear
the draft and the error, set the in-flight flag, and issue one request
carrying the whole conversation-so-far projected to `{role, content}`. -/
def sendPromptStart (now : Nat) (rand : String) (rawPrompt : String) (s : ChatState) :
    ChatState × Option (List OutboundMessage) :=
  let prompt := jsTrim rawPrompt
  if prompt = "" || s.isLoading then (s, none)
  else
    let userMessage := newMessage now rand .user prompt
    let nextMessages := s.messages ++ [userMessage]
    (⟨nextMessages, "", true, none⟩,
     some (nextMessages.map (fun m => ⟨m.role, m.content⟩)))

/-- Settled outcome of the client `fetch` plus `response.json()`
(`digital-twin-chat.tsx` lines 59-72): `throws` when either rejects
(`isErrorInstance` tells whether the thrown value is an `Error`, carrying
`message`); otherwise `response.ok` with the payload fields `error`
(`none` when absent or not delivered) and `reply` (`none` when absent or
not a string — the `typeof` check then yields `""`). -/
inductive ClientFetchOutcome where
  | throws (isErrorInstance : Bool) (message : String)
  | responds (ok : Bool) (errorField : Option String) (replyField : Option String)
deriving DecidableEq, Repr

/-- Fallback message thrown when the payload has no `error` field
(`digital-twin-chat.tsx` line 76). -/
def genericFallback : String := "Unable to get a response from AdrianAI."

/-- Fallback message used when the caught value is not an `Error`
(`digital-twin-chat.tsx` line 84). -/
def connectFallback : String := "Unable to connect to the digital twin right now."

/-- The continuation of `sendPrompt` after the `await`s settle
(`digital-twin-chat.tsx` lines 72-88): a success response with a non-empty
trimmed reply appends one assistant message; otherwise the thrown
`Error(data.error ?? fallback)` — or the transport's own rejection — is
caught and stored as the display error.  `finally` clears the in-flight
flag in every branch. -/
def sendPromptResolve (now : Nat) (rand : String) (outcome : ClientFetchOutcome)
    (s : ChatState) : ChatState :=
  match outcome with
  | .responds ok errorField replyField =>
    let reply := match replyField with
      | some r => jsTrim r
      | none => ""
    if ok && reply ≠ "" then
      { s with messages := s.messages ++ [newMessage now rand .assistant reply],
               isLoading := false }
    else
      { s with error := some (errorField.getD genericFallback), isLoading := false }
  | .throws isErrorInstance message =>
    { s with error := some (if isErrorInstance then message else connectFallback),
             isLoading := false }

/-- A failure outcome: exactly the outcomes on which `sendPrompt` reaches
its `catch` block — a rejection, a non-ok response, or an ok response whose
reply trims to empty. -/
def isFailureOutcome : ClientFetchOutcome → Bool
  | .throws _ _ => true
  | .responds ok _ replyField =>
    !(ok && (match replyField with
             | some r => jsTrim r
             | none => "") ≠ "")

/-! ## Spec-side definition for the normalization claim

`claimedNormalize` renders the spec sentence for reply normalization
literally: only chunks whose discriminant tag equals `"text"` contribute
their text field; the contributions are joined with newlines, then trimmed.
It is compared with `extractAssistantText`, the definition taken from the
source. -/

/-- Chunks whose discriminant tag equals `"text"`, as the spec words it. -/
def isTextTagged : Chunk → Bool
  | .obj tag _ => tag = some "text"
  | _ => false

/-- The text field of a chunk, empty when absent. -/
def chunkText : Chunk → String
  | .obj _ text => text.getD ""
  | _ => ""

/-- A plain-string chunk (contributes itself in the source, but has no
`"text"` discriminant tag). -/
def isStrChunk : Chunk → Bool
  | .str _ => true
  | _ => false

/-- Normalization as the spec sentence states it: a plain string is
trimmed; in a chunk sequence exactly the `"text"`-tagged chunks contribute
their text fields, joined in order with newlines, then trimmed. -/
def claimedNormalize : Content → String
  | .str s => jsTrim s
  | .arr chunks =>
    jsTrim (String.intercalate "\n" ((chunks.filter isTextTagged).map chunkText))
  | .otherVal => ""

/-! ## Supporting lemmas -/

/-- The instrumented credential accessor computes the same value as the
plain one. -/
theorem getApiKeyCounted_fst (envVar fileContent : Option String) :
    (getApiKeyCounted envVar fileContent).1 = getApiKey envVar fileContent := by
  cases envVar with
  | none => rfl
  | some v =>
    simp only [getApiKeyCounted, getApiKey]
    by_cases h : jsTrim v = "" <;> simp [h]

/-- A trimmed string of positive length is not empty. -/
theorem length_pos_ne_empty {s : String} (h : s.length > 0) : s ≠ "" := by
  intro he
  rw [he] at h
  simp [String.length] at h

/-- Under the amendment hypotheses — no bare-string elements, and every
`"text"`-tagged chunk carries non-empty text — the source's
map-then-drop-empties pipeline agrees with the spec's
filter-by-tag-then-project pipeline. -/
theorem mapChunk_filter_eq (chunks : List Chunk)
    (h1 : ∀ c ∈ chunks, isStrChunk c = false)
    (h2 : ∀ c ∈ chunks, isTextTagged c = true → chunkText c ≠ "") :
    (chunks.map mapChunk).filter (fun s => s ≠ "")
      = (chunks.filter isTextTagged).map chunkText := by
  induction chunks with
  | nil => rfl
  | cons c rest ih =>
    have hc1 : isStrChunk c = false := h1 c (List.mem_cons_self c rest)
    have hc2 : isTextTagged c = true → chunkText c ≠ "" :=
      h2 c (List.mem_cons_self c rest)
    have ih' := ih (fun x hx => h1 x (List.mem_cons_of_mem c hx))
      (fun x hx => h2 x (List.mem_cons_of_mem c hx))
    have ih2 : List.filter (fun s => !decide (s = "")) (List.map mapChunk rest)
        = List.map chunkText (List.filter isTextTagged rest) := by
      simpa using ih'
    cases c with
    | str s => simp [isStrChunk] at hc1
    | otherVal => simpa [mapChunk, isTextTagged] using ih'
    | obj tag text =>
      by_cases ht : tag = some "text"
      · have hne : text.getD "" ≠ "" := by
          apply hc2
          simp [isTextTagged, ht]
        simp [mapChunk, isTextTagged, ht, chunkText, hne, ih2]
      · simp [mapChunk, isTextTagged, ht, ih2]

/-! ## Claims -/

/-- C1: the claim promises at most one read of the fallback file `../.env`
per process lifetime.  The source has no cache: with the environment
variable unset, every invocation of `getApiKey` performs its own
`readFileSync` of `../.env`, so two resolutions in one process perform two
reads (the resolved value itself is identical each time, as the claim also
states).  The repository's own code review prescribes a module-level cache
as the fix, so this is a defect of the code, not of the claim. -/
theorem fallback_file_read_repeats :
    (getApiKeyCounted none (some "OPENROUTER_API_KEY=sk-abc")).1 = some "sk-abc"
    ∧ (getApiKeyCounted none (some "OPENROUTER_API_KEY=sk-abc")).2
        + (getApiKeyCounted none (some "OPENROUTER_API_KEY=sk-abc")).2 = 2
    ∧ ¬((getApiKeyCounted none (some "OPENROUTER_API_KEY=sk-abc")).2
        + (getApiKeyCounted none (some "OPENROUTER_API_KEY=sk-abc")).2 ≤ 1) := by
  decide

/-- C2: the claim promises a fixed, reproducible identifier for the seed
greeting message, not derived from wall-clock time or randomness.  The
source builds the id from `Date.now()` and `Math.random()`, so two
independently-initialized renderings of the same initial state (here at
clock values 1 and 2, equal random slice) disagree on the greeting id — the
hydration-mismatch defect the repository's own code review flags. -/
theorem greeting_id_time_dependent :
    (initialState 1 "aaaaaa").messages.map (fun m => m.id) = ["assistant-1-aaaaaa"]
    ∧ (initialState 2 "aaaaaa").messages.map (fun m => m.id) = ["assistant-2-aaaaaa"]
    ∧ (initialState 1 "aaaaaa").messages.map (fun m => m.id)
        ≠ (initialState 2 "aaaaaa").messages.map (fun m => m.id) := by
  decide

/-- C3: the sanitized list is exactly the last `MAX_MESSAGES` entries of
the sublist of entries with role `user` or `assistant` and content that is
a string non-empty after trimming; invalid entries never appear, surviving
entries keep their relative order (the sanitized list is a sublist of the
input), and its length caps at `MAX_MESSAGES` with the oldest filtered
entries discarded first (it is the `drop` of all but the last
`MAX_MESSAGES`). -/
theorem sanitize_filter_truncate (msgs : List IncomingMessage) :
    sanitizeMessages (some msgs)
      = (msgs.filter isValidMessage).drop ((msgs.filter isValidMessage).length - MAX_MESSAGES)
    ∧ (∀ m ∈ sanitizeMessages (some msgs),
        (m.role = some "user" ∨ m.role = some "assistant")
        ∧ ∃ s, m.content = some s ∧ jsTrim s ≠ "")
    ∧ List.Sublist (sanitizeMessages (some msgs)) msgs
    ∧ (sanitizeMessages (some msgs)).length
        = min MAX_MESSAGES (msgs.filter isValidMessage).length := by
  refine ⟨rfl, ?_, ?_, ?_⟩
  · intro m hm
    have hmem : m ∈ msgs.filter isValidMessage := by
      have : m ∈ (msgs.filter isValidMessage).drop
          ((msgs.filter isValidMessage).length - MAX_MESSAGES) := hm
      exact List.drop_subset _ _ this
    have hv : isValidMessage m = true := (List.mem_filter.mp hmem).2
    simp only [isValidMessage, Bool.and_eq_true, Bool.or_eq_true, decide_eq_true_eq] at hv
    refine ⟨hv.1, ?_⟩
    rcases hc : m.content with _ | s
    · rw [hc] at hv
      simp at hv
    · rw [hc] at hv
      have hlen : (jsTrim s).length > 0 := by
        have := hv.2
        simpa using this
      exact ⟨s, rfl, length_pos_ne_empty hlen⟩
  · exact List.Sublist.trans (List.drop_sublist _ _) (List.filter_sublist msgs)
  · simp only [sanitizeMessages, sliceLast, List.length_drop]
    omega

/-- C4 counterexample: the claim states that in a chunk sequence exactly
the `"text"`-tagged chunks contribute, all other chunk kinds being ignored.
The source additionally lets a bare string element contribute itself: on
the sequence `["hello"]` the source normalizes to `"hello"` while the
claimed rule yields `""`. -/
theorem extract_text_plain_chunk_divergence :
    extractAssistantText (.arr [.str "hello"]) = "hello"
    ∧ claimedNormalize (.arr [.str "hello"]) = ""
    ∧ extractAssistantText (.arr [.str "hello"]) ≠ claimedNormalize (.arr [.str "hello"]) := by
  decide

/-- C4 amended: a plain string normalizes to its trim, and both spec
examples hold; for a chunk sequence the claimed
join-the-text-tagged-chunks rule is correct exactly on sequences with no
bare-string elements in which every `"text"`-tagged chunk carries non-empty
text (the source also takes bare strings as contributions and drops empty
contributions before joining). -/
theorem extract_text_amended (chunks : List Chunk)
    (h1 : ∀ c ∈ chunks, isStrChunk c = false)
    (h2 : ∀ c ∈ chunks, isTextTagged c = true → chunkText c ≠ "") :
    extractAssistantText (.arr chunks) = claimedNormalize (.arr chunks)
    ∧ (∀ s, extractAssistantText (.str s) = jsTrim s)
    ∧ extractAssistantText (.str "hello") = "hello"
    ∧ extractAssistantText
        (.arr [.obj (some "text") (some "a"), .obj (some "image") (some "x"),
               .obj (some "text") (some "b")]) = "a" ++ "\n" ++ "b" := by
  refine ⟨?_, fun s => rfl, by decide, by decide⟩
  simp only [extractAssistantText, claimedNormalize]
  rw [mapChunk_filter_eq chunks h1 h2]

/-- C4 amended witness: the amended chunk-sequence rule applied to the
spec's own example sequence. -/
theorem extract_text_amended_witness :
    extractAssistantText
        (.arr [.obj (some "text") (some "a"), .obj (some "image") (some "x"),
               .obj (some "text") (some "b")])
      = claimedNormalize
          (.arr [.obj (some "text") (some "a"), .obj (some "image") (some "x"),
                 .obj (some "text") (some "b")]) :=
  (extract_text_amended
      [.obj (some "text") (some "a"), .obj (some "image") (some "x"),
       .obj (some "text") (some "b")]
      (by decide) (by decide)).1

/-- C5: when the transport succeeds with an ok status (and the provider
call was actually reached), the proxy returns the success payload
`{reply, model}` exactly when the normalized reply is non-empty; an empty
normalized reply yields the 502 empty-reply error instead. -/
theorem empty_reply_upstream_error (envVar fileContent : Option String) (body : BodyParse)
    (data : ProviderData)
    (hcall : (POST envVar fileContent body (.upstream true data)).providerCalled = true) :
    ((POST envVar fileContent body (.upstream true data)).response
        = .success (extractAssistantText data.content) OPENROUTER_MODEL
      ↔ extractAssistantText data.content ≠ "")
    ∧ (extractAssistantText data.content = "" →
        (POST envVar fileContent body (.upstream true data)).response
          = .errorResp "Model returned an empty response." 502)
    ∧ (∀ r m, (POST envVar fileContent body (.upstream true data)).response = .success r m →
        r = extractAssistantText data.content ∧ m = OPENROUTER_MODEL
        ∧ extractAssistantText data.content ≠ "") := by
  rcases hk : getApiKey envVar fileContent with _ | k
  · simp [POST, hk] at hcall
  · rcases body with _ | msgs
    · simp [POST, hk] at hcall
    · by_cases hlen : (sanitizeMessages msgs).length = 0
      · simp [POST, hk, hlen] at hcall
      · by_cases hr : extractAssistantText data.content = ""
        · simp [POST, hk, hlen, hr]
        · simp [POST, hk, hlen, hr]

/-- C5 witness: a successful upstream response with content `" ok "`
normalizes to `"ok"` and is returned as the success payload. -/
theorem empty_reply_upstream_error_witness :
    (POST (some "k") none (.parsed (some [⟨some "user", some "hi"⟩]))
        (.upstream true ⟨none, .str " ok "⟩)).response
      = .success (extractAssistantText (.str " ok ")) OPENROUTER_MODEL :=
  (empty_reply_upstream_error (some "k") none (.parsed (some [⟨some "user", some "hi"⟩]))
      ⟨none, .str " ok "⟩ (by decide)).1.mpr (by decide)

/-- C6: the environment value wins when it trims non-empty; when the
variable is absent the resolution falls back to parsing `../.env` for the
`OPENROUTER_API_KEY=` line (`KEY=value` format, surrounding quotes
stripped, as the concrete file contents show); and whenever neither source
yields a value, `POST` answers the 500 configuration error without calling
the provider — for every body and every hypothetical upstream outcome. -/
theorem credential_resolution_order :
    (∀ (v : String) (fileContent : Option String),
      jsTrim v ≠ "" → getApiKey (some v) fileContent = some (jsTrim v))
    ∧ (∀ fileContent : Option String,
      getApiKey none fileContent = readApiKeyFromParentEnv fileContent)
    ∧ readApiKeyFromParentEnv (some "FOO=1\nOPENROUTER_API_KEY=\x27sk-test\x27\nBAR=2")
        = some "sk-test"
    ∧ readApiKeyFromParentEnv (some "OPENROUTER_API_KEY=\"sk-quoted\"") = some "sk-quoted"
    ∧ readApiKeyFromParentEnv (some "  OPENROUTER_API_KEY= plain  ") = some "plain"
    ∧ readApiKeyFromParentEnv (some "OPENROUTER_API_KEY=") = none
    ∧ readApiKeyFromParentEnv (some "OTHER=1") = none
    ∧ readApiKeyFromParentEnv none = none
    ∧ (∀ (envVar fileContent : Option String) (body : BodyParse) (fetch : FetchOutcome),
      getApiKey envVar fileContent = none →
      (POST envVar fileContent body fetch).response
          = .errorResp "OPENROUTER_API_KEY is missing. Add it to web/.env.local or ../.env." 500
        ∧ (POST envVar fileContent body fetch).providerCalled = false) := by
  refine ⟨?_, fun fileContent => rfl, by decide, by decide, by decide, by decide, by decide,
    by decide, ?_⟩
  · intro v fileContent h
    simp [getApiKey, h]
  · intro envVar fileContent body fetch h
    simp [POST, h]

/-- C6 witness: a whitespace-padded environment value resolves to its trim,
and with both sources empty the proxy answers the 500 error with the
provider never called. -/
theorem credential_resolution_order_witness :
    getApiKey (some " sk-env ") none = some (jsTrim " sk-env ")
    ∧ (POST none none .malformed .throws).response
        = .errorResp "OPENROUTER_API_KEY is missing. Add it to web/.env.local or ../.env." 500
    ∧ (POST none none .malformed .throws).providerCalled = false := by
  refine ⟨credential_resolution_order.1 " sk-env " none (by decide), ?_, ?_⟩
  · exact (credential_resolution_order.2.2.2.2.2.2.2.2 none none .malformed .throws
      (by decide)).1
  · exact (credential_resolution_order.2.2.2.2.2.2.2.2 none none .malformed .throws
      (by decide)).2

/-- C7: when the trimmed input is empty or a request is already in flight,
`sendPrompt` returns before any state update or request: the state (hence
the conversation and the status) is unchanged and no outbound request is
issued. -/
theorem submit_noop_on_blank_or_inflight (now : Nat) (rand rawPrompt : String) (s : ChatState)
    (h : jsTrim rawPrompt = "" ∨ s.isLoading = true) :
    sendPromptStart now rand rawPrompt s = (s, none) := by
  rcases h with h | h <;> simp [sendPromptStart, h]

/-- C7 witness: a whitespace-only prompt against the fresh initial state
changes nothing and issues nothing. -/
theorem submit_noop_on_blank_or_inflight_witness :
    sendPromptStart 5 "bbbbbb" "   " (initialState 0 "aaaaaa") = (initialState 0 "aaaaaa", none) :=
  submit_noop_on_blank_or_inflight 5 "bbbbbb" "   " (initialState 0 "aaaaaa")
    (Or.inl (by decide))

/-- C8: on every failure outcome (transport rejection, non-ok response, or
ok response whose reply trims to empty) the conversation is unchanged — no
assistant message is appended — the status becomes `error(reason)` with the
in-flight flag cleared; and every submit that does issue a request starts
with a cleared error state, so the next successful submit clears the
error. -/
theorem failure_preserves_conversation (now : Nat) (rand : String)
    (outcome : ClientFetchOutcome) (s : ChatState)
    (h : isFailureOutcome outcome = true) :
    (sendPromptResolve now rand outcome s).messages = s.messages
    ∧ (∃ reason, (sendPromptResolve now rand outcome s).error = some reason)
    ∧ (sendPromptResolve now rand outcome s).isLoading = false
    ∧ (∀ (now2 : Nat) (rand2 raw : String) (s2 s3 : ChatState) (req : List OutboundMessage),
        sendPromptStart now2 rand2 raw s2 = (s3, some req) → s3.error = none) := by
  have hclr : ∀ (now2 : Nat) (rand2 raw : String) (s2 s3 : ChatState)
      (req : List OutboundMessage),
      sendPromptStart now2 rand2 raw s2 = (s3, some req) → s3.error = none := by
    intro now2 rand2 raw s2 s3 req hsub
    by_cases hc : (jsTrim raw = "" || s2.isLoading) = true
    · simp [sendPromptStart, hc] at hsub
    · simp only [sendPromptStart, Bool.not_eq_true] at hc hsub
      rw [hc] at hsub
      simp only [if_neg Bool.false_ne_true, Prod.mk.injEq] at hsub
      rw [← hsub.1]
  rcases outcome with ⟨isErr, msg⟩ | ⟨ok, errorField, replyField⟩
  · exact ⟨rfl, ⟨if isErr then msg else connectFallback, rfl⟩, rfl, hclr⟩
  · rcases replyField with _ | r
    · cases ok <;> (refine ⟨?_, ?_, ?_, hclr⟩ <;> simp [sendPromptResolve])
    · cases ok
      · refine ⟨?_, ?_, ?_, hclr⟩ <;> simp [sendPromptResolve]
      · have htrim : jsTrim r = "" := by
          simpa [isFailureOutcome] using h
        refine ⟨?_, ?_, ?_, hclr⟩ <;> simp [sendPromptResolve, htrim]

/-- C8 witness: a transport rejection with message `"boom"` leaves the
fresh conversation unchanged and records an error reason. -/
theorem failure_preserves_conversation_witness :
    (sendPromptResolve 1 "cccccc" (.throws true "boom") (initialState 0 "aaaaaa")).messages
      = (initialState 0 "aaaaaa").messages
    ∧ ∃ reason,
        (sendPromptResolve 1 "cccccc" (.throws true "boom") (initialState 0 "aaaaaa")).error
          = some reason :=
  ⟨(failure_preserves_conversation 1 "cccccc" (.throws true "boom") (initialState 0 "aaaaaa")
      (by decide)).1,
   (failure_preserves_conversation 1 "cccccc" (.throws true "boom") (initialState 0 "aaaaaa")
      (by decide)).2.1⟩

/-- C9 counterexample: the claim has the generic fallback used exactly when
the server's message is absent or is empty text.  With a non-ok response
whose `error` field is the empty string, the source stores the empty string
verbatim (`data.error ?? fallback` only falls back on a nullish field), not
the generic fallback. -/
theorem empty_server_message_not_fallback :
    (sendPromptResolve 0 "dddddd" (.responds false (some "") none)
        (initialState 0 "aaaaaa")).error = some ""
    ∧ some "" ≠ some genericFallback := by
  decide

/-- C9 amended: on every non-ok proxy response the client stores a single
display-level error carrying the server's message verbatim whenever the
`error` field is present — even when it is empty text — and the generic
fallback exactly when the field is absent; the in-flight flag is cleared. -/
theorem error_state_mapping_amended (now : Nat) (rand : String)
    (errorField replyField : Option String) (s : ChatState) :
    (sendPromptResolve now rand (.responds false errorField replyField) s).error
      = some (errorField.getD genericFallback)
    ∧ (∀ m, errorField = some m →
        (sendPromptResolve now rand (.responds false errorField replyField) s).error = some m)
    ∧ (errorField = none →
        (sendPromptResolve now rand (.responds false errorField replyField) s).error
          = some genericFallback)
    ∧ (sendPromptResolve now rand (.responds false errorField replyField) s).isLoading
        = false := by
  refine ⟨by simp [sendPromptResolve], ?_, ?_, by simp [sendPromptResolve]⟩
  · intro m hm
    simp [sendPromptResolve, hm]
  · intro hm
    simp [sendPromptResolve, hm]

/-- C10: whenever the credential resolves to nothing, `POST` answers the
500 configuration error with the provider never called, for every body —
including a malformed body and a body with no valid messages, which would
otherwise draw a 400 — and every hypothetical upstream outcome. -/
theorem missing_credential_precedes_body (envVar fileContent : Option String)
    (fetch : FetchOutcome)
    (h : getApiKey envVar fileContent = none) :
    POST envVar fileContent .malformed fetch
      = ⟨.errorResp "OPENROUTER_API_KEY is missing. Add it to web/.env.local or ../.env." 500,
         false⟩
    ∧ (∀ msgs : Option (List IncomingMessage),
        POST envVar fileContent (.parsed msgs) fetch
          = ⟨.errorResp "OPENROUTER_API_KEY is missing. Add it to web/.env.local or ../.env." 500,
             false⟩) := by
  exact ⟨by simp [POST, h], fun msgs => by simp [POST, h]⟩

/-- C10 witness: with no environment value and no readable `../.env`, a
malformed body still draws the 500 configuration error, not the 400 parse
error. -/
theorem missing_credential_precedes_body_witness :
    POST none none .malformed .throws
      = ⟨.errorResp "OPENROUTER_API_KEY is missing. Add it to web/.env.local or ../.env." 500,
         false⟩ :=
  (missing_credential_precedes_body none none .throws (by decide)).1

end ResumeSite
